import Mathlib

/-
Verification of the eterpay invoice subsystem (EntySec/eterpay).

Shallow embedding of the decision logic in `bitcoin/views.py` and
`eterpay/utils.py`:
  * the settlement check of `check_invoice` (views.py lines 105-140),
  * the fee computation `get_price_fee` (utils.py lines 37-38), both as an
    exact-rational idealization and under the context rounding of Python
    `Decimal` (28 significant digits, half-even),
  * the request processing of `release_invoice` (views.py lines 170-201),
    including its actual failure mode: views.py line 49 imports only
    `get_object_or_none` from `eterpay.utils`, so the bare name
    `get_price_fee` at line 191 is unbound and the planning loop raises
    `NameError` on its first iteration, before any output tuple is built
    and before `wallet.send` is reached,
  * the invoice lookup helper `get_object_or_none` (utils.py lines 30-34)
    and the views `delete_invoice` (lines 70-80) and `invoice_details`
    (lines 203-214) built on top of it.

Satoshi amounts and confirmation counts, which the source handles as
machine integers, are modelled as `Nat`.  External collaborators (the
wallet library, Django ORM, HTTP layer) appear only through their
results: the UTXO snapshot is a parameter, the invoice store is an
explicit list, and each view body is a pure function of those.
-/

namespace Eterpay

/-- One unspent output as returned by the wallet collaborator
(`wallet.get_unspents()`): a satoshi amount and a confirmation count. -/
structure Unspent where
  amount : Nat
  confirmations : Nat
deriving DecidableEq, Repr

/-- Outcome of the settlement check, carrying the numeric values that the
corresponding `Response` of `check_invoice` reports.  `unpaid` is the
status-400 response with message "Amount is not payed"; `underpaid` is the
status-400 response reporting the paid amount against the owed amount;
`unconfirmed` is the status-400 response reporting the confirmation count
against the threshold; `settled` is the empty success `Response()`. -/
inductive CheckResult where
  | unpaid : CheckResult
  | underpaid (paid owed : Nat) : CheckResult
  | unconfirmed (confs required : Nat) : CheckResult
  | settled : CheckResult
deriving DecidableEq, Repr

/-- Settlement core of `check_invoice` (views.py lines 119-140), after the
invoice has been found and the wallet queried.  The source tests
`len(utxo) > 0` and then reads `utxo[-1]`, i.e. the last element of the
snapshot; `invoice_amount` is the owed amount converted to satoshis and
`btc_confirmations` is `settings.BTC_CONFIRMATIONS`. -/
def check_invoice (utxo : List Unspent) (invoice_amount btc_confirmations : Nat) :
    CheckResult :=
  match utxo.getLast? with
  | some last_utxo =>
      if last_utxo.amount < invoice_amount then
        CheckResult.underpaid last_utxo.amount invoice_amount
      else if last_utxo.confirmations < btc_confirmations then
        CheckResult.unconfirmed last_utxo.confirmations btc_confirmations
      else
        CheckResult.settled
  | none => CheckResult.unpaid

/-- Fee computation `get_price_fee` (utils.py lines 37-38):
`Decimal(str(price)) * (Decimal(str(percent)) / 100)`, idealized here as
exact rational arithmetic.  Python's default Decimal context rounds every
arithmetic result to 28 significant digits (half-even), so this exact
model agrees with the source only while the intermediate results fit in
that precision; `get_price_fee_decimal` below models the context rounding
faithfully.  The source performs no validation of `percent`
whatsoever. -/
def get_price_fee (price percent : ℚ) : ℚ :=
  price * (percent / 100)

/-- One value of the vendor mapping parsed from the request body of
`release_invoice`: `{'amount': ..., 'fee': ...}` where `fee` is the
percentage fee rate. -/
structure VendorEntry where
  amount : ℚ
  fee : ℚ
deriving DecidableEq, Repr

/-- Outcome of the `release_invoice` request-body processing (views.py
lines 184-197).  `sent outputs` means the loop completed and
`wallet.send(outputs)` was attempted; `nameError` means the loop raised
`NameError` (a server error, outside the `try` at line 195) before any
output was built, so no wallet call was attempted.  `negativeNet` is
modelled from the spec: the `NegativeNetAmount` failure its sections 4.4
and 7 prescribe, included so that claims about it are expressible — the
source has no code path that produces it. -/
inductive ReleaseOutcome where
  | sent (outputs : List (String × ℚ × String)) : ReleaseOutcome
  | nameError : ReleaseOutcome
  | negativeNet : ReleaseOutcome
deriving DecidableEq, Repr

/-- Request processing of `release_invoice` (views.py lines 184-197).
views.py line 49 imports only `get_object_or_none` from `eterpay.utils`,
so the name `get_price_fee` used at line 191 is unbound in the module:
for every non-empty vendor mapping the first loop iteration raises
`NameError` before any output tuple is appended, and the exception is not
caught (the `try` starts only at line 195), so `wallet.send` is never
reached.  Only for an empty mapping does the loop not run, and then
`wallet.send([])` is attempted with the empty output list.  The JSON
object is modelled as an insertion-ordered association list, matching
Python dict iteration order. -/
def release_invoice_plan (vendors : List (String × VendorEntry)) : ReleaseOutcome :=
  match vendors with
  | [] => ReleaseOutcome.sent []
  | _ :: _ => ReleaseOutcome.nameError

/-- Round-half-even of a rational to the nearest integer, the tie-breaking
rule of Python Decimal's default `ROUND_HALF_EVEN`. -/
def roundHalfEven (q : ℚ) : ℤ :=
  if q - (⌊q⌋ : ℚ) < 1/2 then ⌊q⌋
  else if 1/2 < q - (⌊q⌋ : ℚ) then ⌊q⌋ + 1
  else if ⌊q⌋ % 2 = 0 then ⌊q⌋ else ⌊q⌋ + 1

/-- Rounding of a rational to 28 significant decimal digits, half-even:
the rounding Python's default Decimal context (`getcontext().prec == 28`,
`ROUND_HALF_EVEN`) applies to every arithmetic result.  The quantum is
`10 ^ (e - 27)` where `e` is the decimal exponent of the value, so a value
already representable in 28 significant digits is returned unchanged. -/
def decimal_round (q : ℚ) : ℚ :=
  if q = 0 then 0
  else (roundHalfEven (q / (10:ℚ) ^ (Int.log 10 |q| - 27)) : ℚ) *
    (10:ℚ) ^ (Int.log 10 |q| - 27)

/-- Fee computation of utils.py lines 37-38 under faithful Python Decimal
default-context semantics: construction from the request string is exact,
and the two arithmetic operations — the division by 100 and the
multiplication — are each rounded to 28 significant digits half-even. -/
def get_price_fee_decimal (price percent : ℚ) : ℚ :=
  decimal_round (price * decimal_round (percent / 100))

/-- Persisted invoice record (`bitcoin/models.BitcoinInvoice` as used by
the views): the fields the views read. -/
structure BitcoinInvoice where
  uuid : String
  user : String
  amount : ℚ
  address : String
  key : String
deriving DecidableEq, Repr

/-- Error or success payload of a view `Response`; `error` carries the
message of a status-400 `{'error': msg}` response. -/
inductive ApiResult (α : Type) where
  | ok (val : α) : ApiResult α
  | error (msg : String) : ApiResult α
deriving DecidableEq, Repr

/-- Lookup helper `get_object_or_none` (utils.py lines 30-34): Django
`objects.get(user=..., uuid=...)` returns the matching row or raises
`ObjectDoesNotExist`, which the helper converts to `None`.  The store is
modelled as the list of persisted invoices. -/
def get_object_or_none (store : List BitcoinInvoice) (user uuid : String) :
    Option BitcoinInvoice :=
  store.find? (fun i => i.user == user && i.uuid == uuid)

/-- View `delete_invoice` (views.py lines 70-80): on a failed lookup it
returns the status-400 error response and touches nothing; otherwise it
deletes the found invoice and returns the empty success response.  Returns
the response together with the store after the call. -/
def delete_invoice (store : List BitcoinInvoice) (user uuid : String) :
    ApiResult Unit × List BitcoinInvoice :=
  match get_object_or_none store user uuid with
  | none => (ApiResult.error "UUID does not belong to any of the invoices.", store)
  | some invoice => (ApiResult.ok (), store.erase invoice)

/-- View `invoice_details` (views.py lines 203-214): on a failed lookup it
returns the status-400 error response, otherwise the serialized invoice.
It never writes to the store. -/
def invoice_details (store : List BitcoinInvoice) (user uuid : String) :
    ApiResult BitcoinInvoice :=
  match get_object_or_none store user uuid with
  | none => ApiResult.error "UUID does not belong to any of the invoices."
  | some invoice => ApiResult.ok invoice

/-- Modelled from the spec (section 4.3 step 3), not present in the source:
the outputs "that contribute to reaching the required total", read greedily
in snapshot order until the accumulated amount reaches the owed amount. -/
def contributing_outputs (owed : Nat) : List Unspent → List Unspent
  | [] => []
  | u :: rest =>
      if owed ≤ u.amount then [u]
      else u :: contributing_outputs (owed - u.amount) rest

/-- Minimum confirmation count of a list of outputs (0 for the empty
list); used only by the spec-side evaluator below. -/
def min_confirmations : List Unspent → Nat
  | [] => 0
  | [u] => u.confirmations
  | u :: v :: rest => min u.confirmations (min_confirmations (v :: rest))

/-- Modelled from the spec (section 4.3): the aggregate settlement
evaluator the spec prescribes — sum the received amount across ALL outputs
to decide sufficiency, and gate confirmation on the minimum confirmation
count among the outputs contributing to the required total.  Stated here
only to be compared with `check_invoice`, which the source implements
instead. -/
def spec_settlement (utxo : List Unspent) (owed threshold : Nat) : CheckResult :=
  if utxo.isEmpty then CheckResult.unpaid
  else
    let total := (utxo.map Unspent.amount).sum
    if total < owed then CheckResult.underpaid total owed
    else
      let gating := min_confirmations (contributing_outputs owed utxo)
      if gating < threshold then CheckResult.unconfirmed gating threshold
      else CheckResult.settled

/-- Characterization of `Int.log` used to evaluate `decimal_round` on
concrete values: the decimal exponent of a positive rational is the `e`
with `10 ^ e ≤ q < 10 ^ (e + 1)`. -/
theorem int_log_eq (q : ℚ) (e : ℤ) (h0 : 0 < q)
    (h1 : (10:ℚ)^e ≤ q) (h2 : q < (10:ℚ)^(e+1)) : Int.log 10 q = e := by
  have hb : 1 < (10:ℕ) := by norm_num
  have hle : e ≤ Int.log 10 q := by
    refine (Int.zpow_le_iff_le_log hb h0).mp ?_
    push_cast
    exact h1
  have hlt : Int.log 10 q < e + 1 := by
    refine (Int.lt_zpow_iff_log_lt hb h0).mp ?_
    push_cast
    exact h2
  omega

/-- Round-half-even fixes `n + r` to `n` when the fractional part `r` is
below one half. -/
theorem roundHalfEven_int_add (n : ℤ) (r : ℚ) (hr0 : 0 ≤ r) (hr1 : r < 1/2) :
    roundHalfEven ((n:ℚ) + r) = n := by
  have hf : ⌊(n:ℚ) + r⌋ = n := by
    rw [add_comm, Int.floor_add_int, Int.floor_eq_zero_iff.mpr
      (Set.mem_Ico.mpr ⟨hr0, by linarith⟩), zero_add]
  unfold roundHalfEven
  rw [hf]
  have hr : (n:ℚ) + r - (n:ℚ) = r := by ring
  rw [hr, if_pos hr1]

/-- Round-half-even takes `n + r` up to `n + 1` when the fractional part
`r` is above one half. -/
theorem roundHalfEven_int_add_up (n : ℤ) (r : ℚ) (hr0 : 1/2 < r) (hr1 : r < 1) :
    roundHalfEven ((n:ℚ) + r) = n + 1 := by
  have hf : ⌊(n:ℚ) + r⌋ = n := by
    rw [add_comm, Int.floor_add_int, Int.floor_eq_zero_iff.mpr
      (Set.mem_Ico.mpr ⟨by linarith, hr1⟩), zero_add]
  unfold roundHalfEven
  rw [hf]
  have hr : (n:ℚ) + r - (n:ℚ) = r := by ring
  rw [hr, if_neg (by linarith), if_pos hr0]

/-- Evaluation rule for `decimal_round` when the discarded part rounds
down: if `q` lies in the decade `[10^e, 10^(e+1))` and splits at the
28-digit quantum as `n + r` with `r < 1/2`, the result is `n` quanta. -/
theorem decimal_round_spec (q : ℚ) (e n : ℤ) (r : ℚ) (hq : 0 < q)
    (h1 : (10:ℚ)^e ≤ q) (h2 : q < (10:ℚ)^(e+1))
    (hsplit : q / (10:ℚ)^(e-27) = (n:ℚ) + r) (hr0 : 0 ≤ r) (hr1 : r < 1/2) :
    decimal_round q = (n:ℚ) * (10:ℚ)^(e-27) := by
  have habs : |q| = q := abs_of_pos hq
  have hlog : Int.log 10 |q| = e := by rw [habs]; exact int_log_eq q e hq h1 h2
  unfold decimal_round
  rw [if_neg (ne_of_gt hq), hlog, hsplit, roundHalfEven_int_add n r hr0 hr1]

/-- Evaluation rule for `decimal_round` when the discarded part rounds
up: if `q` lies in the decade `[10^e, 10^(e+1))` and splits at the
28-digit quantum as `n + r` with `1/2 < r < 1`, the result is `n + 1`
quanta. -/
theorem decimal_round_spec_up (q : ℚ) (e n : ℤ) (r : ℚ) (hq : 0 < q)
    (h1 : (10:ℚ)^e ≤ q) (h2 : q < (10:ℚ)^(e+1))
    (hsplit : q / (10:ℚ)^(e-27) = (n:ℚ) + r) (hr0 : 1/2 < r) (hr1 : r < 1) :
    decimal_round q = ((n:ℤ) + 1 : ℤ) * (10:ℚ)^(e-27) := by
  have habs : |q| = q := abs_of_pos hq
  have hlog : Int.log 10 |q| = e := by rw [habs]; exact int_log_eq q e hq h1 h2
  unfold decimal_round
  rw [if_neg (ne_of_gt hq), hlog, hsplit, roundHalfEven_int_add_up n r hr0 hr1]

/-- Claim C1, counterexample: the settlement check does NOT sum the
received amount across all outputs.  On the snapshot with two outputs of
60 and 50 satoshis (both with 10 confirmations), owed amount 100 and
threshold 1, the aggregate evaluator of the spec settles the invoice
(total 110 ≥ 100, min confirmations 10 ≥ 1), but the code reports
underpaid, comparing only the last output's 50 against 100. -/
theorem check_invoice_not_aggregate :
    spec_settlement [⟨60, 10⟩, ⟨50, 10⟩] 100 1 = CheckResult.settled ∧
    check_invoice [⟨60, 10⟩, ⟨50, 10⟩] 100 1 = CheckResult.underpaid 50 100 := by
  decide

/-- Claim C1, amended: for every non-empty UTXO snapshot the settlement
check decides sufficiency and confirmation from the LAST output alone —
the check on the whole snapshot equals the check on the singleton snapshot
holding just its last output. -/
theorem check_invoice_reads_last_output (utxo : List Unspent) (last_utxo : Unspent)
    (owed threshold : Nat) (h : utxo.getLast? = some last_utxo) :
    check_invoice utxo owed threshold = check_invoice [last_utxo] owed threshold := by
  simp [check_invoice, h]

/-- Claim C1, witness: `check_invoice_reads_last_output` applied to the
two-output snapshot `[(7 sat, 1 conf), (3 sat, 2 conf)]`. -/
theorem check_invoice_reads_last_output_spot :
    check_invoice [⟨7, 1⟩, ⟨3, 2⟩] 5 1 = check_invoice [⟨3, 2⟩] 5 1 :=
  check_invoice_reads_last_output [⟨7, 1⟩, ⟨3, 2⟩] ⟨3, 2⟩ 5 1 (by decide)

/-- Claim C4: two non-empty snapshots whose last elements agree in amount
and confirmation count get the same settlement outcome for the same owed
amount and threshold — the decision reads only the last output. -/
theorem check_invoice_same_last_same_result (u1 u2 : List Unspent) (a b : Unspent)
    (owed threshold : Nat) (h1 : u1.getLast? = some a) (h2 : u2.getLast? = some b)
    (hamt : a.amount = b.amount) (hconf : a.confirmations = b.confirmations) :
    check_invoice u1 owed threshold = check_invoice u2 owed threshold := by
  simp [check_invoice, h1, h2, hamt, hconf]

/-- Claim C4, witness: two snapshots with very different earlier outputs
but the same last output `(5 sat, 3 conf)` get the same outcome. -/
theorem check_invoice_same_last_same_result_spot :
    check_invoice [⟨999, 0⟩, ⟨5, 3⟩] 4 2 = check_invoice [⟨5, 3⟩, ⟨1, 1⟩, ⟨5, 3⟩] 4 2 :=
  check_invoice_same_last_same_result [⟨999, 0⟩, ⟨5, 3⟩] [⟨5, 3⟩, ⟨1, 1⟩, ⟨5, 3⟩]
    ⟨5, 3⟩ ⟨5, 3⟩ 4 2 (by decide) (by decide) rfl rfl

/-- Claim C9: on an empty UTXO snapshot the settlement check returns the
`unpaid` outcome — the status-400 response "Amount is not payed" — for
every owed amount and threshold. -/
theorem check_invoice_empty_unpaid (owed threshold : Nat) :
    check_invoice [] owed threshold = CheckResult.unpaid := rfl

/-- Claim C2, counterexample: the release operation does not fail with
NegativeNetAmount on a negative net.  For the vendor entry with amount 1
and fee rate 150 the net amount 1 - 1.5 = -1/2 is negative, yet the
request fails with the uncaught NameError from the unbound
`get_price_fee` reference — not with the spec's NegativeNetAmount
failure. -/
theorem release_negative_net_not_flagged :
    (1:ℚ) - get_price_fee 1 150 < 0 ∧
    release_invoice_plan [("vendorA", ⟨1, 150⟩)] = ReleaseOutcome.nameError ∧
    ReleaseOutcome.nameError ≠ ReleaseOutcome.negativeNet := by
  refine ⟨by norm_num [get_price_fee], rfl, by simp⟩

/-- Claim C2, amended: for every request in which some vendor entry has a
negative net amount (as for every non-empty request at all), the release
operation does fail before any wallet call — but with the NameError from
the unbound `get_price_fee` name, never with NegativeNetAmount; no
negative-net check exists in the code. -/
theorem release_name_error_before_wallet (vendors : List (String × VendorEntry))
    (v : String) (e : VendorEntry) (hmem : (v, e) ∈ vendors)
    (hneg : e.amount - get_price_fee e.amount e.fee < 0) :
    release_invoice_plan vendors = ReleaseOutcome.nameError := by
  cases vendors with
  | nil => cases hmem
  | cons p rest => rfl

/-- Claim C2, witness: `release_name_error_before_wallet` on the request
with amount 1 and fee rate 150, whose net amount is negative. -/
theorem release_name_error_before_wallet_spot :
    release_invoice_plan [("vendorA", ⟨1, 150⟩)] = ReleaseOutcome.nameError :=
  release_name_error_before_wallet [("vendorA", ⟨1, 150⟩)] "vendorA" ⟨1, 150⟩
    (by simp) (by norm_num [get_price_fee])

/-- Claim C3, counterexample: rates outside [0, 100) do not make the fee
computation fail with InvalidRate — utils.py's `get_price_fee` validates
nothing and returns 2 * 150 / 100 = 3 at rate 150 and 2 * (-50) / 100 =
-1 at rate -50. -/
theorem fee_accepts_invalid_rate :
    get_price_fee 2 150 = 3 ∧ get_price_fee 2 (-50) = -1 := by
  constructor <;> norm_num [get_price_fee]

/-- Claim C3, amended: the fee computation performs no rate validation
and never fails: for non-negative price, a rate ≥ 100 yields a fee of at
least the whole price and a negative rate yields a non-positive fee.  A
release request carrying such a fee_rate does fail without any wallet
call — but with the NameError raised for every non-empty request
regardless of rate, not with InvalidRate. -/
theorem fee_no_rate_validation (price rate : ℚ) (hp : 0 ≤ price) :
    (100 ≤ rate → price ≤ get_price_fee price rate) ∧
    (rate < 0 → get_price_fee price rate ≤ 0) ∧
    release_invoice_plan [("vendorB", ⟨price, rate⟩)] = ReleaseOutcome.nameError := by
  refine ⟨?_, ?_, rfl⟩
  · intro h
    unfold get_price_fee
    have h1 : (1 : ℚ) ≤ rate / 100 := by linarith
    calc price = price * 1 := by ring
    _ ≤ price * (rate / 100) := mul_le_mul_of_nonneg_left h1 hp
  · intro h
    unfold get_price_fee
    have h1 : rate / 100 ≤ 0 := by linarith
    have h2 : price * (rate / 100) ≤ price * 0 := mul_le_mul_of_nonneg_left h1 hp
    simpa using h2

/-- Claim C3, witness: `fee_no_rate_validation` at price 1 and rate 150 —
the out-of-range rate is accepted and the fee swallows the whole price. -/
theorem fee_no_rate_validation_spot :
    (1 : ℚ) ≤ get_price_fee 1 150 :=
  (fee_no_rate_validation 1 150 (by norm_num)).1 (by norm_num)

/-- Claim C5, counterexample: under faithful Decimal semantics the fee is
NOT `amount * (rate / 100)` for every amount and every rate in [0, 100).
The amount 1.0000000000000000000000000001 (29 significant digits,
reachable as a JSON string value, exact at `Decimal(str(...))`
construction) at rate 3 gives an exact product of
0.030000000000000000000000000003, which the 28-digit context rounds to
0.03, so the computed fee differs from the exact value. -/
theorem fee_decimal_not_exact :
    0 ≤ (10000000000000000000000000001 : ℚ)/10^28 ∧ (0:ℚ) ≤ 3 ∧ (3:ℚ) < 100 ∧
    get_price_fee_decimal ((10000000000000000000000000001 : ℚ)/10^28) 3 ≠
      ((10000000000000000000000000001 : ℚ)/10^28) * (3 / 100) := by
  refine ⟨by norm_num, by norm_num, by norm_num, ?_⟩
  have h1 : decimal_round ((3:ℚ) / 100) = 3 / 100 := by
    have h := decimal_round_spec ((3:ℚ)/100) (-2) 3000000000000000000000000000 0
      (by norm_num) (by norm_num) (by norm_num) (by norm_num) (by norm_num) (by norm_num)
    rw [h]
    norm_num
  have h2 : decimal_round ((10000000000000000000000000001 : ℚ)/10^28 * (3/100)) =
      3/100 := by
    have h := decimal_round_spec ((10000000000000000000000000001 : ℚ)/10^28 * (3/100))
      (-2) 3000000000000000000000000000 (3/10)
      (by norm_num) (by norm_num) (by norm_num) (by norm_num) (by norm_num) (by norm_num)
    rw [h]
    norm_num
  unfold get_price_fee_decimal
  rw [h1, h2]
  norm_num

/-- Claim C5, amended: the fee equals `amount * (rate / 100)` exactly
whenever the two Decimal operations stay within the 28-significant-digit
context (the rounding of the quotient and of the product are identities),
and there is no binary floating-point involved; the scenario values of
amount 1 and fee rate 2 give a net amount of exactly 0.98.  (The scenario's
release request itself produces no plan: the view dies with NameError —
see C8.) -/
theorem fee_exact_within_context (amount rate : ℚ)
    (h1 : decimal_round (rate / 100) = rate / 100)
    (h2 : decimal_round (amount * (rate / 100)) = amount * (rate / 100)) :
    get_price_fee_decimal amount rate = amount * (rate / 100) ∧
    (1:ℚ) - get_price_fee 1 2 = 98/100 := by
  refine ⟨?_, by norm_num [get_price_fee]⟩
  unfold get_price_fee_decimal
  rw [h1, h2]

/-- Claim C5, witness: `fee_exact_within_context` at amount 1 and rate 2,
both rounding steps evaluated to identities. -/
theorem fee_exact_within_context_spot :
    get_price_fee_decimal 1 2 = 1 * ((2:ℚ) / 100) ∧ (1:ℚ) - get_price_fee 1 2 = 98/100 := by
  refine fee_exact_within_context 1 2 ?_ ?_
  · have h := decimal_round_spec ((2:ℚ)/100) (-2) 2000000000000000000000000000 0
      (by norm_num) (by norm_num) (by norm_num) (by norm_num) (by norm_num) (by norm_num)
    rw [h]
    norm_num
  · have h := decimal_round_spec ((1:ℚ) * (2/100)) (-2) 2000000000000000000000000000 0
      (by norm_num) (by norm_num) (by norm_num) (by norm_num) (by norm_num) (by norm_num)
    rw [h]
    norm_num

/-- Claim C6, counterexample: within the claim's own preconditions
(amount ≥ 0, fee rate in [0, 100)) the Decimal-faithful net amount can be
negative.  At rate 99.999999999999999999999999999 (29 significant digits,
< 100) the quotient rate / 100 rounds half-even UP to exactly 1, and the
29-digit amount 1.0000000000000000000000000006 then rounds up under the
multiplication to 1.000000000000000000000000001, so the fee exceeds the
amount and the net is -4e-28 < 0 (the final subtraction is exact, its
result having one significant digit). -/
theorem net_negative_under_decimal_rounding :
    0 ≤ (10000000000000000000000000006 : ℚ)/10^28 ∧
    0 ≤ (99999999999999999999999999999 : ℚ)/10^27 ∧
    (99999999999999999999999999999 : ℚ)/10^27 < 100 ∧
    (10000000000000000000000000006 : ℚ)/10^28 -
      get_price_fee_decimal ((10000000000000000000000000006 : ℚ)/10^28)
        ((99999999999999999999999999999 : ℚ)/10^27) < 0 := by
  refine ⟨by norm_num, by norm_num, by norm_num, ?_⟩
  have h1 : decimal_round (((99999999999999999999999999999 : ℚ)/10^27) / 100) = 1 := by
    have h := decimal_round_spec_up (((99999999999999999999999999999 : ℚ)/10^27) / 100)
      (-1) 9999999999999999999999999999 (9/10)
      (by norm_num) (by norm_num) (by norm_num) (by norm_num) (by norm_num) (by norm_num)
    rw [h]
    norm_num
  have h2 : decimal_round ((10000000000000000000000000006 : ℚ)/10^28 * 1) =
      ((1000000000000000000000000000 + 1 : ℤ) : ℚ) * (10:ℚ)^((0:ℤ)-27) :=
    decimal_round_spec_up ((10000000000000000000000000006 : ℚ)/10^28 * 1) 0
      1000000000000000000000000000 (6/10)
      (by norm_num) (by norm_num) (by norm_num) (by norm_num) (by norm_num) (by norm_num)
  unfold get_price_fee_decimal
  rw [h1, h2]
  norm_num

/-- Claim C6, amended: in exact rational arithmetic, every entry with a
non-negative amount and a fee rate in [0, 100) has a non-negative net
amount `amount - get_price_fee amount fee` — but the source's planner
never emits it: for every non-empty request the release loop fails with
NameError before building any output, and under the Decimal context's
28-digit rounding the net can be negative within the same preconditions
(see the counterexample). -/
theorem net_nonneg_exact_never_planned (vendors : List (String × VendorEntry))
    (v : String) (e : VendorEntry) (hmem : (v, e) ∈ vendors)
    (ha : 0 ≤ e.amount) (h0 : 0 ≤ e.fee) (h1 : e.fee < 100) :
    0 ≤ e.amount - get_price_fee e.amount e.fee ∧
    release_invoice_plan vendors = ReleaseOutcome.nameError := by
  constructor
  · unfold get_price_fee
    have hle : e.fee / 100 ≤ 1 := by linarith
    have h2 : e.amount * (e.fee / 100) ≤ e.amount * 1 :=
      mul_le_mul_of_nonneg_left hle ha
    nlinarith
  · cases vendors with
    | nil => cases hmem
    | cons p rest => rfl

/-- Claim C6, witness: `net_nonneg_exact_never_planned` on the one-vendor
request with amount 1 and fee rate 2. -/
theorem net_nonneg_exact_never_planned_spot :
    0 ≤ (1:ℚ) - get_price_fee 1 2 ∧
    release_invoice_plan [("vendorA", ⟨1, 2⟩)] = ReleaseOutcome.nameError :=
  net_nonneg_exact_never_planned [("vendorA", ⟨1, 2⟩)] "vendorA" ⟨1, 2⟩
    (by simp) (by norm_num) (by norm_num) (by norm_num)

/-- Claim C7: for every non-negative amount, the fee at rate 0 is 0, and
the fee is monotone in the rate on [0, 100): r1 ≤ r2 implies
`get_price_fee amount r1 ≤ get_price_fee amount r2`. -/
theorem fee_zero_and_monotone (amount r1 r2 : ℚ) (ha : 0 ≤ amount)
    (h0 : 0 ≤ r1) (h12 : r1 ≤ r2) (h2 : r2 < 100) :
    get_price_fee amount 0 = 0 ∧ get_price_fee amount r1 ≤ get_price_fee amount r2 := by
  constructor
  · norm_num [get_price_fee]
  · unfold get_price_fee
    exact mul_le_mul_of_nonneg_left (by linarith) ha

/-- Claim C7, witness: `fee_zero_and_monotone` at amount 5 and rates 2 and
3. -/
theorem fee_zero_and_monotone_spot :
    get_price_fee 5 0 = 0 ∧ get_price_fee 5 2 ≤ get_price_fee 5 3 :=
  fee_zero_and_monotone 5 2 3 (by norm_num) (by norm_num) (by norm_num) (by norm_num)

/-- Claim C8: the code at the failing input.  The release view never
produces the planned output sequence the claim (and the intended loop)
describes: because views.py does not import `get_price_fee`, the request
with the single vendor entry of amount 1 and fee rate 2 dies with
NameError before any output tuple exists. -/
theorem release_produces_no_sequence :
    release_invoice_plan [("vendorA", ⟨1, 2⟩)] = ReleaseOutcome.nameError ∧
    ReleaseOutcome.nameError ≠
      ReleaseOutcome.sent [("vendorA", (1:ℚ) - get_price_fee 1 2, "btc")] := by
  exact ⟨rfl, by simp⟩

/-- Claim C10: when no invoice in the store matches both the user and the
uuid, the details view and the delete view both return the not-found
error response, and delete leaves the store exactly as it was. -/
theorem notfound_leaves_store_unchanged (store : List BitcoinInvoice) (user uuid : String)
    (h : ∀ i ∈ store, ¬(i.user = user ∧ i.uuid = uuid)) :
    invoice_details store user uuid =
      ApiResult.error "UUID does not belong to any of the invoices." ∧
    delete_invoice store user uuid =
      (ApiResult.error "UUID does not belong to any of the invoices.", store) := by
  have hfind : get_object_or_none store user uuid = none := by
    unfold get_object_or_none
    rw [List.find?_eq_none]
    intro i hi
    simpa using h i hi
  constructor
  · simp [invoice_details, hfind]
  · simp [delete_invoice, hfind]

/-- Claim C10, witness: `notfound_leaves_store_unchanged` on a one-invoice
store queried with a non-matching user and uuid. -/
theorem notfound_leaves_store_unchanged_spot :
    invoice_details [⟨"a1", "alice", 1, "addr1", "key1"⟩] "bob" "b1" =
      ApiResult.error "UUID does not belong to any of the invoices." ∧
    delete_invoice [⟨"a1", "alice", 1, "addr1", "key1"⟩] "bob" "b1" =
      (ApiResult.error "UUID does not belong to any of the invoices.",
       [⟨"a1", "alice", 1, "addr1", "key1"⟩]) :=
  notfound_leaves_store_unchanged [⟨"a1", "alice", 1, "addr1", "key1"⟩] "bob" "b1"
    (by decide)

end Eterpay
